import Mathlib

/-!
Verification development for the PaveTheWay repository: a set of prototype
dashboard scripts (app.py, new_app.py, final_app.py, mapillary_streamlit.py,
fastapi_app.py) around a CSV-backed repair-request store, a municipal pothole
feed loader, a street-imagery (Mapillary) client and a map-click selection
state machine.

The Python sources are shallowly embedded as Lean functions:
* a CSV file on disk is `FileState α = Option (Except String (List α))`:
  `none` when the file is absent, `some (.error raw)` when it exists but
  `pd.read_csv` fails to parse it, `some (.ok rows)` when it parses;
* Python floats that the scripts store as coordinates are modelled as `Rat`
  (the scripts only move them between the click event and the CSV);
* timestamps are ISO-8601 strings; pandas `sort_values` compares them as
  plain strings, modelled by the lexicographic order on their character
  lists;
* a fallible Python path (an uncaught exception) is an `Except` error.
-/

deriving instance DecidableEq for Except

/-- Disk state of a CSV table: absent, present-but-unparsable (carrying the
raw content), or parsed into rows. -/
abbrev FileState (α : Type) := Option (Except String (List α))

/-! ## Repair-request store (fastapi_app.py) -/

/-- One row of the `User_Requests.csv` table in the schema written by
`fastapi_app.py` (`id, name, description, severity, lat, lon, timestamp,
rating`). -/
structure RepairRow where
  id : String
  name : String
  description : String
  severity : String
  lat : Rat
  lon : Rat
  timestamp : String
  rating : Nat
deriving DecidableEq

/-- Body of `POST /api/requests` (`UserRequest` pydantic model in
fastapi_app.py): the RepairRow fields except `rating`. -/
structure UserRequest where
  id : String
  name : String
  description : String
  severity : String
  lat : Rat
  lon : Rat
  timestamp : String
deriving DecidableEq

/-- Outcome of a store API call, as reported to the HTTP client. -/
inductive ApiStatus
  | success
  | notFound (msg : String)
  | serverError
deriving DecidableEq

/-- The `new_row` dict built by `add_request`: the request fields plus
`rating = 0`. -/
def toRow (req : UserRequest) : RepairRow :=
  { id := req.id, name := req.name, description := req.description,
    severity := req.severity, lat := req.lat, lon := req.lon,
    timestamp := req.timestamp, rating := 0 }

/-- `add_request` in fastapi_app.py: read the CSV if present (an empty table
with the fixed 8-column schema otherwise), append the new row, rewrite the
file; a read/parse failure is caught by the surrounding `try` and answered
with HTTP 500, leaving the file unwritten. Returns (file state after,
response). -/
def add_request (file : FileState RepairRow) (req : UserRequest) :
    FileState RepairRow × ApiStatus :=
  match file with
  | none => (some (.ok [toRow req]), .success)
  | some (.ok rows) => (some (.ok (rows ++ [toRow req])), .success)
  | some (.error e) => (some (.error e), .serverError)

/-- `upvote_request` in fastapi_app.py: 404 `"No requests file"` when the CSV
is absent; otherwise load it (a parse failure is caught and answered 500),
404 `"Request ID not found"` when no row's id matches the given id after
`astype(str)` on both sides, else `rating += 1` on every matching row and
rewrite. Returns (file state after, response). -/
def upvote_request (file : FileState RepairRow) (tid : String) :
    FileState RepairRow × ApiStatus :=
  match file with
  | none => (none, .notFound "No requests file")
  | some (.error e) => (some (.error e), .serverError)
  | some (.ok rows) =>
    if rows.any fun r => r.id == tid then
      (some (.ok (rows.map fun r =>
         if r.id == tid then { r with rating := r.rating + 1 } else r)),
       .success)
    else
      (some (.ok rows), .notFound "Request ID not found")

/-! ## Recent-requests preview (final_app.py / new_app.py)

`pd.read_csv(USER_REQS_PATH).sort_values("timestamp", ascending=False)
.head(limit)`, with absent file or any read error degrading to the
"No saved requests yet" message, i.e. an empty listing. The sort is an
insertion sort into descending timestamp order (pandas guarantees only the
ordering, not tie-breaking). -/

/-- Insert a row into a list already in descending timestamp order. -/
def insertDesc (x : RepairRow) : List RepairRow → List RepairRow
  | [] => [x]
  | y :: ys =>
    if y.timestamp.data ≤ x.timestamp.data then x :: y :: ys
    else y :: insertDesc x ys

/-- Sort rows by `timestamp` descending (string comparison, as pandas
`sort_values` does on an object column). -/
def sortDesc (l : List RepairRow) : List RepairRow := l.foldr insertDesc []

/-- The recent-requests preview of final_app.py / new_app.py: sort by
timestamp descending and keep the first `limit` rows; absent or unparsable
file yields the empty listing. -/
def listRecent (file : FileState RepairRow) (limit : Nat) : List RepairRow :=
  match file with
  | none => []
  | some (.error _) => []
  | some (.ok rows) => (sortDesc rows).take limit

/-! ## Streamlit submit handlers -/

/-- The 7-field request dict written by the Streamlit variants (no `rating`
column). -/
structure UserReq where
  id : String
  name : String
  description : String
  severity : String
  lat : Rat
  lon : Rat
  timestamp : String
deriving DecidableEq

/-- `save_user_request` in new_app.py (the same read-concat-rewrite block is
inlined in final_app.py's submit handler): read the existing CSV and append,
but on a parse failure fall back to a one-row table holding only the new
request; then rewrite the file. -/
def save_user_request (file : FileState UserReq) (req : UserReq) : List UserReq :=
  match file with
  | none => [req]
  | some (.error _) => [req]
  | some (.ok rows) => rows ++ [req]

/-- Session-state selection: the coordinates of the most recent map click
(`clicked_lat`/`clicked_lon` or `selected_lat`/`selected_lon`), `none` when
no click happened yet. -/
structure SelectionState where
  selected_lat : Option Rat
  selected_lon : Option Rat
deriving DecidableEq

/-- Python truthiness of an optional float: `None` and `0.0` are falsy,
every other value truthy. -/
def pyTruthy : Option Rat → Bool
  | none => false
  | some v => v != 0

/-- What the submit handler reported to the user. -/
inductive SubmitResult
  | missingSelection
  | saved
deriving DecidableEq

/-- State after a submit: the CSV file, the session selection, and the
reported result. -/
structure SubmitOutcome where
  file : FileState UserReq
  state : SelectionState
  result : SubmitResult
deriving DecidableEq

/-- Submit handler of new_app.py: guard `not (st.session_state.selected_lat
and st.session_state.selected_lon)` (truthiness); on success build the dict
(`name or "anonymous"`), `save_user_request`, then clear `selected_lat` and
`selected_lon` to `None`. `ts1`/`ts2` are the two `datetime.utcnow()`
readings used for `id` and `timestamp`. -/
def newSubmit (st : SelectionState) (file : FileState UserReq)
    (name description severity ts1 ts2 : String) : SubmitOutcome :=
  if !(pyTruthy st.selected_lat && pyTruthy st.selected_lon) then
    { file := file, state := st, result := .missingSelection }
  else
    let req : UserReq :=
      { id := ts1, name := if name = "" then "anonymous" else name,
        description := description, severity := severity,
        lat := st.selected_lat.getD 0, lon := st.selected_lon.getD 0,
        timestamp := ts2 }
    { file := some (.ok (save_user_request file req)),
      state := { selected_lat := none, selected_lon := none },
      result := .saved }

/-- Submit handler of final_app.py: same truthiness guard on
`st.session_state.get("clicked_lat"/"clicked_lon")` and same dict build
(`name or "anonymous"`, `float()` on the stored coordinates) with the
read-concat-or-clobber save inlined, but the clicked coordinates are left in
the session state afterwards. -/
def finalSubmit (st : SelectionState) (file : FileState UserReq)
    (name description severity ts1 ts2 : String) : SubmitOutcome :=
  if !(pyTruthy st.selected_lat && pyTruthy st.selected_lon) then
    { file := file, state := st, result := .missingSelection }
  else
    let req : UserReq :=
      { id := ts1, name := if name = "" then "anonymous" else name,
        description := description, severity := severity,
        lat := st.selected_lat.getD 0, lon := st.selected_lon.getD 0,
        timestamp := ts2 }
    { file := some (.ok (save_user_request file req)),
      state := st,
      result := .saved }

/-- Submit handler of app.py: guard `if clicked_lat and clicked_lon`
(truthiness); the dict stores the entered `name` unchanged (no
`or "anonymous"` fallback) and the read-append block has no try/except, so a
parse failure of an existing CSV propagates as an exception. -/
def appSubmit (st : SelectionState) (file : FileState UserReq)
    (name description severity ts1 ts2 : String) : Except String SubmitOutcome :=
  if pyTruthy st.selected_lat && pyTruthy st.selected_lon then
    let req : UserReq :=
      { id := ts1, name := name, description := description,
        severity := severity, lat := st.selected_lat.getD 0,
        lon := st.selected_lon.getD 0, timestamp := ts2 }
    match file with
    | some (.error e) => .error e
    | some (.ok rows) =>
      .ok { file := some (.ok (rows ++ [req])), state := st, result := .saved }
    | none =>
      .ok { file := some (.ok [req]), state := st, result := .saved }
  else
    .ok { file := file, state := st, result := .missingSelection }

/-- Submit handler of mapillary_streamlit.py (`pothole_form`): same shape as
app.py's — truthiness guard, raw `name`, no try/except around the read. -/
def mapillarySubmit (st : SelectionState) (file : FileState UserReq)
    (name description severity ts1 ts2 : String) : Except String SubmitOutcome :=
  if pyTruthy st.selected_lat && pyTruthy st.selected_lon then
    let req : UserReq :=
      { id := ts1, name := name, description := description,
        severity := severity, lat := st.selected_lat.getD 0,
        lon := st.selected_lon.getD 0, timestamp := ts2 }
    match file with
    | some (.error e) => .error e
    | some (.ok rows) =>
      .ok { file := some (.ok (rows ++ [req])), state := st, result := .saved }
    | none =>
      .ok { file := some (.ok [req]), state := st, result := .saved }
  else
    .ok { file := file, state := st, result := .missingSelection }

/-! ## Municipal pothole feed (final_app.py / new_app.py / app.py) -/

/-- A coordinate cell of the municipal CSV as pandas hands it to `float()`:
a numeric value (including numeric strings, which `float()` parses), a
missing cell (pandas NaN — `float(nan)` succeeds and yields NaN), or a
non-numeric string on which `float()` raises `ValueError`. -/
inductive CsvCell
  | num (q : Rat)
  | nanCell
  | badStr (s : String)
deriving DecidableEq

/-- A Python float that a coordinate conversion can produce: a finite value
or NaN. -/
inductive PyFloat
  | fin (q : Rat)
  | nan
deriving DecidableEq

/-- `float(cell)` under the per-row `try`: `none` when it raises. -/
def tryFloat : CsvCell → Option PyFloat
  | .num q => some (.fin q)
  | .nanCell => some .nan
  | .badStr _ => none

/-- `pd.notna` on a coordinate cell: false only for the NaN cell. -/
def notnaCell : CsvCell → Bool
  | .num _ => true
  | .nanCell => false
  | .badStr _ => true

/-- Python `str.upper()` (character-wise uppercase). -/
def upperString (s : String) : String := ⟨s.data.map Char.toUpper⟩

/-- Pandas `astype(str)` on a status cell: a missing value (NaN) prints as
`"nan"`. -/
def pandasStr : Option String → String
  | none => "nan"
  | some s => s

/-- One row of the municipal pothole CSV; `status_flag` is `none` when the
`SR_STATUS_FLAG` cell is missing (NaN). -/
structure MuniRow where
  status_flag : Option String
  latitude : CsvCell
  longitude : CsvCell
  sr_number : String
deriving DecidableEq

/-- The parsed municipal CSV: whether the `SR_STATUS_FLAG` column exists at
all, and the rows. -/
structure MuniFeed where
  hasStatusFlag : Bool
  rows : List MuniRow
deriving DecidableEq

/-- A Python exception escaping an embedded expression. -/
inductive PyError
  | attributeError
  | keyError
deriving DecidableEq

/-- The row filter `df[df.get("SR_STATUS_FLAG", "").astype(str).str.upper()
== "OPEN"]` shared by final_app.py and new_app.py: when the column exists,
keep the rows whose flag upper-cases to `"OPEN"` (a NaN cell prints as
`"nan"`); when the column is missing, `df.get` returns the plain-string
default `""`, on which `.astype(str)` raises `AttributeError`. -/
def openRowsExpr (feed : MuniFeed) : Except PyError (List MuniRow) :=
  if feed.hasStatusFlag then
    .ok (feed.rows.filter fun r => upperString (pandasStr r.status_flag) == "OPEN")
  else
    .error .attributeError

/-- `load_pothole_data` in new_app.py: absent file yields `[]` with no
message; every exception inside the body (read failure, the missing-column
`AttributeError`) is caught by the outer `except`, yielding `[]` plus a
warning; per-row `float()` failures are skipped by the inner bare `except`.
Returns (points as (lat, lon, sr_number), warning shown?). -/
def load_pothole_data (file : Option (Except String MuniFeed)) :
    List (PyFloat × PyFloat × String) × Bool :=
  match file with
  | none => ([], false)
  | some (.error _) => ([], true)
  | some (.ok feed) =>
    match openRowsExpr feed with
    | .error _ => ([], true)
    | .ok openRows =>
      (openRows.filterMap fun r =>
        match tryFloat r.latitude, tryFloat r.longitude with
        | some a, some b => some (a, b, r.sr_number)
        | _, _ => none,
       false)

/-- `add_pothole_csv_layer` in final_app.py: absent file or read failure
degrade to no markers, but the filter expression itself sits outside the
`try`, so the missing-column `AttributeError` escapes uncaught; per-row
`float()` failures are skipped by the per-row `try`/`continue`. Returns the
markers handed to the map layer as (lat, lon, sr_number). -/
def add_pothole_csv_layer (file : Option (Except String MuniFeed)) :
    Except PyError (List (PyFloat × PyFloat × String)) :=
  match file with
  | none => .ok []
  | some (.error _) => .ok []
  | some (.ok feed) =>
    match openRowsExpr feed with
    | .error e => .error e
    | .ok openRows =>
      .ok (openRows.filterMap fun r =>
        match tryFloat r.latitude, tryFloat r.longitude with
        | some a, some b => some (a, b, r.sr_number)
        | _, _ => none)

/-- The row filter of app.py, `df["SR_STATUS_FLAG"].str.upper() == "OPEN"`:
a NaN flag compares unequal, a present flag is kept iff it upper-cases to
`"OPEN"`. -/
def appOpenFilter (r : MuniRow) : Bool :=
  match r.status_flag with
  | some s => upperString s == "OPEN"
  | none => false

/-- The overlay rows of app.py's `add_pothole_csv_layer`: open rows whose
coordinate cells pass `pd.notna` are handed (with their raw cell values) to
the marker constructor — there is no `float()` parse and no per-row guard
against non-numeric strings. -/
def appOverlayRows (feed : MuniFeed) : Except PyError (List MuniRow) :=
  if feed.hasStatusFlag then
    .ok ((feed.rows.filter appOpenFilter).filter fun r =>
      notnaCell r.latitude && notnaCell r.longitude)
  else
    .error .keyError

/-! ## Mapillary street-imagery client (final_app.py / new_app.py) -/

/-- What the one outbound HTTP GET would produce: a connection failure, a
non-success status (`raise_for_status`), a body that is not valid JSON, or a
JSON body whose `data` array holds the items. -/
inductive NetResponse
  | failure
  | badStatus
  | malformed
  | ok (data : List String)
deriving DecidableEq

/-- Body of `fetch_mapillary_images` (identical in final_app.py and
new_app.py): empty token returns `[]` before any request; otherwise one GET
is issued and any failure, bad status or JSON error is caught, returning
`[]`. Returns (result, number of outbound network calls). -/
def fetch_mapillary_images (bbox token : String) (limit : Nat)
    (net : NetResponse) : List String × Nat :=
  if token = "" then ([], 0)
  else
    match net with
    | .ok data => (data, 1)
    | _ => ([], 1)

/-- One memo entry of the `st.cache_data(ttl=600)` wrapper: the argument key
`(bbox, token, limit)`, the time the value was computed, and the cached
value. -/
structure CacheEntry where
  key : String × String × Nat
  time : Nat
  value : List String
deriving DecidableEq

/-- Cache lookup: the first entry with this key whose age at `now` is within
the 600-second ttl. -/
def cacheLookup (c : List CacheEntry) (k : String × String × Nat) (now : Nat) :
    Option (List String) :=
  (c.find? fun e => e.key == k && decide (e.time ≤ now) &&
    decide (now < e.time + 600)).map (·.value)

/-- The cached fetch as the apps call it: a fresh-enough memo entry answers
with zero outbound calls; otherwise the body runs and its result is memoized
at `now`. Returns (result, cache after, outbound calls). -/
def cachedFetch (c : List CacheEntry) (bbox token : String) (limit : Nat)
    (now : Nat) (net : NetResponse) :
    List String × List CacheEntry × Nat :=
  match cacheLookup c (bbox, token, limit) now with
  | some v => (v, c, 0)
  | none =>
    let r := fetch_mapillary_images bbox token limit net
    (r.1, ⟨(bbox, token, limit), now, r.1⟩ :: c, r.2)

/-! ## Helper lemmas on the timestamp sort -/

/-- Descending-timestamp order on listed rows. -/
def SortedByTsDesc (l : List RepairRow) : Prop :=
  l.Pairwise fun a b => b.timestamp.data ≤ a.timestamp.data

theorem mem_insertDesc {x a : RepairRow} {l : List RepairRow} :
    a ∈ insertDesc x l ↔ a = x ∨ a ∈ l := by
  induction l with
  | nil => simp [insertDesc]
  | cons y ys ih =>
    by_cases h : y.timestamp.data ≤ x.timestamp.data
    · simp [insertDesc, h]
    · simp [insertDesc, h, ih]
      tauto

theorem sortedByTsDesc_insertDesc {x : RepairRow} {l : List RepairRow}
    (hl : SortedByTsDesc l) : SortedByTsDesc (insertDesc x l) := by
  induction l with
  | nil => simp [insertDesc, SortedByTsDesc]
  | cons y ys ih =>
    rw [SortedByTsDesc, List.pairwise_cons] at hl
    by_cases h : y.timestamp.data ≤ x.timestamp.data
    · rw [SortedByTsDesc, insertDesc]
      simp only [h, if_true, List.pairwise_cons]
      refine ⟨fun b hb => ?_, hl.1, hl.2⟩
      rcases List.mem_cons.1 hb with rfl | hb
      · exact h
      · exact le_trans (hl.1 b hb) h
    · rw [SortedByTsDesc, insertDesc]
      simp only [h, if_false, List.pairwise_cons]
      refine ⟨fun b hb => ?_, ih hl.2⟩
      rcases mem_insertDesc.1 hb with rfl | hb
      · exact le_of_not_le h
      · exact hl.1 b hb

theorem mem_sortDesc {a : RepairRow} {l : List RepairRow} :
    a ∈ sortDesc l ↔ a ∈ l := by
  induction l with
  | nil => simp [sortDesc]
  | cons y ys ih =>
    simp only [sortDesc, List.foldr_cons, List.mem_cons]
    rw [show ys.foldr insertDesc [] = sortDesc ys from rfl] at *
    rw [mem_insertDesc, ih]

theorem sortedByTsDesc_sortDesc (l : List RepairRow) :
    SortedByTsDesc (sortDesc l) := by
  induction l with
  | nil => simp [sortDesc, SortedByTsDesc]
  | cons y ys ih => exact sortedByTsDesc_insertDesc ih

theorem head_sortDesc_of_strict_max {l : List RepairRow} {x : RepairRow}
    (hmem : x ∈ l)
    (hmax : ∀ y ∈ l, y = x ∨ y.timestamp.data < x.timestamp.data) :
    (sortDesc l).head? = some x := by
  have hmem' : x ∈ sortDesc l := mem_sortDesc.2 hmem
  cases hsd : sortDesc l with
  | nil => rw [hsd] at hmem'; cases hmem'
  | cons a tl =>
    rw [hsd] at hmem'
    have hha : a ∈ l := mem_sortDesc.1 (by rw [hsd]; exact List.mem_cons_self _ _)
    have hxa : x.timestamp.data ≤ a.timestamp.data := by
      have hs := sortedByTsDesc_sortDesc l
      rw [hsd, SortedByTsDesc] at hs
      rcases List.mem_cons.1 hmem' with rfl | hx
      · exact le_refl _
      · exact (List.pairwise_cons.1 hs).1 x hx
    simp only [List.head?_cons, Option.some.injEq]
    rcases hmax a hha with rfl | hlt
    · rfl
    · exact absurd (lt_of_le_of_lt hxa hlt) (lt_irrefl _)

theorem head?_take_of_pos {α : Type} {l : List α} {n : Nat} (hn : 1 ≤ n) :
    (l.take n).head? = l.head? := by
  cases l with
  | nil => simp
  | cons a tl =>
    cases n with
    | zero => cases hn
    | succ m => simp [List.take_succ_cons]

/-- Auxiliary: `insertDesc` adds exactly one element. -/
theorem length_insertDesc (x : RepairRow) (l : List RepairRow) :
    (insertDesc x l).length = l.length + 1 := by
  induction l with
  | nil => rfl
  | cons y ys ih =>
    by_cases h : y.timestamp.data ≤ x.timestamp.data
    · simp [insertDesc, h]
    · simp [insertDesc, h, ih]

/-- Auxiliary: the sort keeps the number of rows. -/
theorem length_sortDesc (l : List RepairRow) : (sortDesc l).length = l.length := by
  induction l with
  | nil => rfl
  | cons y ys ih =>
    show (insertDesc y (sortDesc ys)).length = ys.length + 1
    rw [length_insertDesc, ih]

/-- Sample store rows used to instantiate hypothesis-bearing theorems. -/
def rowA : RepairRow :=
  { id := "2025-01-02T00:00:00", name := "alice", description := "deep crack",
    severity := "High", lat := 39.1, lon := -84.5,
    timestamp := "2025-01-02T00:00:00", rating := 0 }

/-- Second sample row, with an earlier timestamp than `rowA`. -/
def rowB : RepairRow :=
  { id := "2025-01-01T00:00:00", name := "bob", description := "shallow dip",
    severity := "Low", lat := 39.2, lon := -84.4,
    timestamp := "2025-01-01T00:00:00", rating := 3 }

/-- Sample API request body used to instantiate hypothesis-bearing
theorems. -/
def reqA : UserRequest :=
  { id := "2025-03-01T12:00:00", name := "carol", description := "pothole",
    severity := "Medium", lat := 39.05, lon := -84.6,
    timestamp := "2025-03-01T12:00:00" }

/-- C7: `listRecent` returns stored rows ordered by timestamp descending,
truncated to the given count; an absent or unparsable table degrades to the
empty listing instead of propagating a parse error. -/
theorem listRecent_spec (limit : Nat) :
    (listRecent none limit = [] ∧
     (∀ e, listRecent (some (.error e)) limit = [])) ∧
    (∀ rows : List RepairRow,
      (listRecent (some (.ok rows)) limit).length ≤ limit ∧
      SortedByTsDesc (listRecent (some (.ok rows)) limit) ∧
      (∀ r ∈ listRecent (some (.ok rows)) limit, r ∈ rows) ∧
      (rows.length ≤ limit → ∀ r ∈ rows, r ∈ listRecent (some (.ok rows)) limit)) := by
  refine ⟨⟨rfl, fun e => rfl⟩, fun rows => ⟨?_, ?_, ?_, ?_⟩⟩
  · exact List.length_take_le limit (sortDesc rows)
  · exact List.Pairwise.sublist (List.take_sublist limit (sortDesc rows))
      (sortedByTsDesc_sortDesc rows)
  · intro r hr
    exact mem_sortDesc.1 (List.mem_of_mem_take hr)
  · intro hlen r hr
    have : (sortDesc rows).take limit = sortDesc rows := by
      apply List.take_of_length_le
      rw [length_sortDesc]
      exact hlen
    simpa [listRecent, this] using mem_sortDesc.2 hr

/-- Witness for C7 at a concrete two-row store and limit 10. -/
theorem listRecent_spec_witness :
    ([rowB, rowA] : List RepairRow).length ≤ 10 ∧
    rowA ∈ listRecent (some (.ok [rowB, rowA])) 10 :=
  ⟨by decide,
   ((listRecent_spec 10).2 [rowB, rowA]).2.2.2 (by decide) rowA (by simp)⟩

/-- C10: on the save path, when the user-requests table exists but fails to
parse, the rewrite stores a one-row table holding only the new request —
every previously stored row is discarded — whereas a parsable table is
appended to. -/
theorem save_on_parse_failure_clobbers (raw : String) (req : UserReq)
    (rows : List UserReq) :
    save_user_request (some (.error raw)) req = [req] ∧
    save_user_request (some (.ok rows)) req = rows ++ [req] :=
  ⟨rfl, rfl⟩

/-- C2: upvoting an id present in the store increments the rating of every
matching row by exactly 1 per call (two calls by exactly 2); upvoting an id
absent from the store answers not-found and leaves the table unchanged. -/
theorem upvote_increments_and_notfound (rows : List RepairRow) (tid : String) :
    ((∃ r ∈ rows, r.id = tid) →
      upvote_request (some (.ok rows)) tid =
        (some (.ok (rows.map fun r =>
          if r.id = tid then { r with rating := r.rating + 1 } else r)),
         .success) ∧
      (upvote_request (upvote_request (some (.ok rows)) tid).1 tid).1 =
        some (.ok (rows.map fun r =>
          if r.id = tid then { r with rating := r.rating + 2 } else r))) ∧
    ((∀ r ∈ rows, r.id ≠ tid) →
      upvote_request (some (.ok rows)) tid =
        (some (.ok rows), .notFound "Request ID not found")) := by
  constructor
  · intro hex
    have hany : (rows.any fun r => r.id == tid) = true := by
      rw [List.any_eq_true]
      obtain ⟨r, hr, hid⟩ := hex
      exact ⟨r, hr, by simp [hid]⟩
    have hstep : upvote_request (some (.ok rows)) tid =
        (some (.ok (rows.map fun r =>
          if r.id = tid then { r with rating := r.rating + 1 } else r)),
         .success) := by
      simp only [upvote_request, hany, if_true]
      simp
    refine ⟨hstep, ?_⟩
    rw [hstep]
    obtain ⟨r, hr, hid⟩ := hex
    have hany2 : ((rows.map fun r =>
        if r.id = tid then { r with rating := r.rating + 1 } else r).any
          fun r => r.id == tid) = true := by
      rw [List.any_eq_true]
      refine ⟨if r.id = tid then { r with rating := r.rating + 1 } else r,
        List.mem_map_of_mem _ hr, ?_⟩
      simp [hid]
    simp only [upvote_request, hany2, if_true]
    rw [List.map_map]
    congr 2
    apply List.map_congr_left
    intro a _
    by_cases h : a.id = tid
    · simp [h, Function.comp]
    · simp [h, Function.comp]
  · intro habs
    have hany : (rows.any fun r => r.id == tid) = false := by
      rw [List.any_eq_false]
      intro r hr
      simp [habs r hr]
    simp [upvote_request, hany]

/-- Witness for C2 at a one-row store: upvoting `rowA`'s id twice takes its
rating from 0 to 2; the not-found branch is exercised by the id
`"missing"`. -/
theorem upvote_increments_and_notfound_witness :
    ((∃ r ∈ [rowA], r.id = "2025-01-02T00:00:00") ∧
      upvote_request (some (.ok [rowA])) "2025-01-02T00:00:00" =
        (some (.ok ([rowA].map fun r =>
          if r.id = "2025-01-02T00:00:00" then { r with rating := r.rating + 1 } else r)),
         .success) ∧
      (upvote_request
        (upvote_request (some (.ok [rowA])) "2025-01-02T00:00:00").1
        "2025-01-02T00:00:00").1 =
        some (.ok ([rowA].map fun r =>
          if r.id = "2025-01-02T00:00:00" then { r with rating := r.rating + 2 } else r))) ∧
    ((∀ r ∈ [rowA], r.id ≠ "missing") ∧
      upvote_request (some (.ok [rowA])) "missing" =
        (some (.ok [rowA]), .notFound "Request ID not found")) := by
  have h1 : ∃ r ∈ [rowA], r.id = "2025-01-02T00:00:00" := ⟨rowA, by simp, rfl⟩
  have h2 : ∀ r ∈ [rowA], r.id ≠ "missing" := by decide
  exact ⟨⟨h1, (upvote_increments_and_notfound [rowA] "2025-01-02T00:00:00").1 h1⟩,
         ⟨h2, (upvote_increments_and_notfound [rowA] "missing").2 h2⟩⟩

/-- C9: every submit guard tests the clicked coordinates for Python
truthiness, so a selection whose latitude or longitude is exactly 0 is
rejected with the missing-location error and no row is written, even though
a click set a location. -/
theorem zero_coordinate_treated_as_missing (st : SelectionState)
    (file : FileState UserReq) (name description severity ts1 ts2 : String)
    (h : st.selected_lat = some 0 ∨ st.selected_lon = some 0) :
    finalSubmit st file name description severity ts1 ts2 =
      { file := file, state := st, result := .missingSelection } ∧
    newSubmit st file name description severity ts1 ts2 =
      { file := file, state := st, result := .missingSelection } ∧
    appSubmit st file name description severity ts1 ts2 =
      .ok { file := file, state := st, result := .missingSelection } := by
  rcases h with h | h
  · refine ⟨?_, ?_, ?_⟩ <;> simp [finalSubmit, newSubmit, appSubmit, pyTruthy, h]
  · refine ⟨?_, ?_, ?_⟩ <;> simp [finalSubmit, newSubmit, appSubmit, pyTruthy, h]

/-- Witness for C9: a click at latitude exactly 0 (longitude −84.51) is
rejected by all three submit handlers and writes nothing. -/
theorem zero_coordinate_treated_as_missing_witness :
    (({ selected_lat := some 0, selected_lon := some (-84.51) } : SelectionState).selected_lat
        = some 0 ∨
      ({ selected_lat := some 0, selected_lon := some (-84.51) } : SelectionState).selected_lon
        = some 0) ∧
    (finalSubmit { selected_lat := some 0, selected_lon := some (-84.51) } none
        "dana" "gap" "Low" "t1" "t2" =
      { file := none,
        state := { selected_lat := some 0, selected_lon := some (-84.51) },
        result := .missingSelection } ∧
     newSubmit { selected_lat := some 0, selected_lon := some (-84.51) } none
        "dana" "gap" "Low" "t1" "t2" =
      { file := none,
        state := { selected_lat := some 0, selected_lon := some (-84.51) },
        result := .missingSelection } ∧
     appSubmit { selected_lat := some 0, selected_lon := some (-84.51) } none
        "dana" "gap" "Low" "t1" "t2" =
      .ok { file := none,
            state := { selected_lat := some 0, selected_lon := some (-84.51) },
            result := .missingSelection }) :=
  ⟨Or.inl rfl,
   zero_coordinate_treated_as_missing
     { selected_lat := some 0, selected_lon := some (-84.51) } none
     "dana" "gap" "Low" "t1" "t2" (Or.inl rfl)⟩

/-- C1: appending a request through the store API and then listing recent
requests returns a record whose id, name, description, severity, lat, lon
and timestamp equal those of the request and whose rating is 0. The
freshness hypothesis says the new request's timestamp is strictly later than
every stored one (the submission instant), which puts it at the head of the
descending listing. -/
theorem roundtrip_add_then_list (rows : List RepairRow) (req : UserRequest)
    (limit : Nat)
    (hfresh : ∀ r ∈ rows, r.timestamp.data < req.timestamp.data)
    (hlim : 1 ≤ limit) :
    ∃ rec : RepairRow,
      (listRecent (add_request (some (.ok rows)) req).1 limit).head? = some rec ∧
      rec.id = req.id ∧ rec.name = req.name ∧
      rec.description = req.description ∧ rec.severity = req.severity ∧
      rec.lat = req.lat ∧ rec.lon = req.lon ∧
      rec.timestamp = req.timestamp ∧ rec.rating = 0 := by
  refine ⟨toRow req, ?_, rfl, rfl, rfl, rfl, rfl, rfl, rfl, rfl⟩
  have hstep : (add_request (some (.ok rows)) req).1 =
      some (.ok (rows ++ [toRow req])) := rfl
  rw [hstep]
  show ((sortDesc (rows ++ [toRow req])).take limit).head? = some (toRow req)
  rw [head?_take_of_pos hlim]
  apply head_sortDesc_of_strict_max
  · exact List.mem_append.2 (Or.inr (List.mem_singleton.2 rfl))
  · intro y hy
    rcases List.mem_append.1 hy with hy | hy
    · exact Or.inr (hfresh y hy)
    · exact Or.inl (List.mem_singleton.1 hy)

/-- Witness for C1: appending `reqA` to the two-row store `[rowA, rowB]` and
listing with limit 10 puts the fresh record first. -/
theorem roundtrip_add_then_list_witness :
    (∀ r ∈ [rowA, rowB], r.timestamp.data < reqA.timestamp.data) ∧
    (1 : Nat) ≤ 10 ∧
    ∃ rec : RepairRow,
      (listRecent (add_request (some (.ok [rowA, rowB])) reqA).1 10).head? = some rec ∧
      rec.id = reqA.id ∧ rec.name = reqA.name ∧
      rec.description = reqA.description ∧ rec.severity = reqA.severity ∧
      rec.lat = reqA.lat ∧ rec.lon = reqA.lon ∧
      rec.timestamp = reqA.timestamp ∧ rec.rating = 0 :=
  ⟨by decide, by decide,
   roundtrip_add_then_list [rowA, rowB] reqA 10 (by decide) (by decide)⟩

/-- C5: the street-imagery fetch returns an empty list with no outbound call
on an empty token (also through the cache layer); it returns an empty list —
without raising, being a total function into a list — on network failure,
non-success status or malformed body; and two cached calls with the
identical (bbox, token, limit) key whose times lie within the 600-second ttl
window issue at most one outbound call between them. -/
theorem mapillary_fetch_spec (c : List CacheEntry) (bbox token : String)
    (limit t1 t2 : Nat) (net1 net2 : NetResponse)
    (hle : t1 ≤ t2) (hwin : t2 < t1 + 600) :
    (∀ bb lim net t, fetch_mapillary_images bb "" lim net = ([], 0) ∧
      (cachedFetch c bb "" lim t net).2.2 = 0) ∧
    (∀ bb tok lim,
      (fetch_mapillary_images bb tok lim .failure).1 = [] ∧
      (fetch_mapillary_images bb tok lim .badStatus).1 = [] ∧
      (fetch_mapillary_images bb tok lim .malformed).1 = []) ∧
    ((cachedFetch c bbox token limit t1 net1).2.2 +
      (cachedFetch (cachedFetch c bbox token limit t1 net1).2.1
        bbox token limit t2 net2).2.2 ≤ 1) := by
  have hraw : ∀ bb tok lim (net : NetResponse),
      (fetch_mapillary_images bb tok lim net).2 ≤ 1 := by
    intro bb tok lim net
    by_cases h : tok = ""
    · simp [fetch_mapillary_images, h]
    · cases net <;> simp [fetch_mapillary_images, h]
  refine ⟨?_, ?_, ?_⟩
  · intro bb lim net t
    refine ⟨rfl, ?_⟩
    cases h : cacheLookup c (bb, "", lim) t with
    | some v => simp [cachedFetch, h]
    | none => simp [cachedFetch, h, fetch_mapillary_images]
  · intro bb tok lim
    by_cases h : tok = "" <;>
      simp [fetch_mapillary_images, h]
  · cases h1 : cacheLookup c (bbox, token, limit) t1 with
    | some v =>
      simp only [cachedFetch, h1]
      cases h2 : cacheLookup c (bbox, token, limit) t2 with
      | some w => simp [h2]
      | none => simpa [h2] using hraw bbox token limit net2
    | none =>
      simp only [cachedFetch, h1]
      have hhit : cacheLookup
          (⟨(bbox, token, limit), t1,
            (fetch_mapillary_images bbox token limit net1).1⟩ :: c)
          (bbox, token, limit) t2 ≠ none := by
        simp [cacheLookup, List.find?, hle, hwin]
      cases h2 : cacheLookup
          (⟨(bbox, token, limit), t1,
            (fetch_mapillary_images bbox token limit net1).1⟩ :: c)
          (bbox, token, limit) t2 with
      | none => exact absurd h2 hhit
      | some w => simpa [h2] using hraw bbox token limit net1

/-- Witness for C5: on an empty cache, a fetch at time 0 followed by a fetch
with the same key at time 300 issues at most one outbound call. -/
theorem mapillary_fetch_spec_witness :
    (0 : Nat) ≤ 300 ∧ 300 < 0 + 600 ∧
    (cachedFetch [] "-84.64,39.045,-84.45,39.17" "tok" 400 0 (.ok ["i1"])).2.2 +
      (cachedFetch
        (cachedFetch [] "-84.64,39.045,-84.45,39.17" "tok" 400 0 (.ok ["i1"])).2.1
        "-84.64,39.045,-84.45,39.17" "tok" 400 300 .failure).2.2 ≤ 1 :=
  ⟨by decide, by decide,
   (mapillary_fetch_spec [] "-84.64,39.045,-84.45,39.17" "tok" 400 0 300
     (.ok ["i1"]) .failure (by decide) (by decide)).2.2⟩

/-- Counterexample to C3: in final_app.py a successful submit from
`Selected(39.10, -84.51)` persists the row but does NOT clear the clicked
coordinates — the session stays in `Selected`, not `NoSelection`. -/
theorem finalSubmit_retains_selection_cex :
    mkRat 391 10 = 39.10 ∧ mkRat (-8451) 100 = -84.51 ∧
    finalSubmit { selected_lat := some (mkRat 391 10),
                  selected_lon := some (mkRat (-8451) 100) }
        (some (.ok [])) "erin" "hole" "High" "t1" "t2" =
      { file := some (.ok [{ id := "t1", name := "erin", description := "hole",
                             severity := "High", lat := mkRat 391 10,
                             lon := mkRat (-8451) 100,
                             timestamp := "t2" }]),
        state := { selected_lat := some (mkRat 391 10),
                   selected_lon := some (mkRat (-8451) 100) },
        result := .saved } ∧
    ({ selected_lat := some (mkRat 391 10),
       selected_lon := some (mkRat (-8451) 100) } : SelectionState) ≠
      { selected_lat := none, selected_lon := none } := by
  refine ⟨by norm_num [Rat.mkRat_eq_div], by norm_num [Rat.mkRat_eq_div],
    by decide, by decide⟩

/-- C3 as amended: from `NoSelection` both submit handlers fail with the
missing-selection error and write nothing; from `Selected(lat, lon)` with
nonzero coordinates a successful submit persists exactly one new row with
those exact coordinates in both variants, but only new_app.py clears the
selection back to `NoSelection` — final_app.py leaves it set. -/
theorem selection_state_machine_amended (rows : List UserReq)
    (name description severity ts1 ts2 : String) (lat lon : Rat)
    (hlat : lat ≠ 0) (hlon : lon ≠ 0) :
    (newSubmit { selected_lat := none, selected_lon := none }
        (some (.ok rows)) name description severity ts1 ts2 =
      { file := some (.ok rows),
        state := { selected_lat := none, selected_lon := none },
        result := .missingSelection }) ∧
    (finalSubmit { selected_lat := none, selected_lon := none }
        (some (.ok rows)) name description severity ts1 ts2 =
      { file := some (.ok rows),
        state := { selected_lat := none, selected_lon := none },
        result := .missingSelection }) ∧
    (∃ req : UserReq, req.lat = lat ∧ req.lon = lon ∧
      newSubmit { selected_lat := some lat, selected_lon := some lon }
          (some (.ok rows)) name description severity ts1 ts2 =
        { file := some (.ok (rows ++ [req])),
          state := { selected_lat := none, selected_lon := none },
          result := .saved }) ∧
    (∃ req : UserReq, req.lat = lat ∧ req.lon = lon ∧
      finalSubmit { selected_lat := some lat, selected_lon := some lon }
          (some (.ok rows)) name description severity ts1 ts2 =
        { file := some (.ok (rows ++ [req])),
          state := { selected_lat := some lat, selected_lon := some lon },
          result := .saved }) := by
  refine ⟨by simp [newSubmit, pyTruthy], by simp [finalSubmit, pyTruthy],
    ⟨{ id := ts1, name := if name = "" then "anonymous" else name,
       description := description, severity := severity,
       lat := lat, lon := lon, timestamp := ts2 }, rfl, rfl, ?_⟩,
    ⟨{ id := ts1, name := if name = "" then "anonymous" else name,
       description := description, severity := severity,
       lat := lat, lon := lon, timestamp := ts2 }, rfl, rfl, ?_⟩⟩
  · simp [newSubmit, pyTruthy, hlat, hlon, save_user_request]
  · simp [finalSubmit, pyTruthy, hlat, hlon, save_user_request]

/-- Witness for the amended C3 at `Selected(39.10, -84.51)` on an empty
store. -/
theorem selection_state_machine_amended_witness :
    (mkRat 391 10) ≠ 0 ∧ (mkRat (-8451) 100) ≠ 0 ∧
    (∃ req : UserReq, req.lat = mkRat 391 10 ∧ req.lon = mkRat (-8451) 100 ∧
      newSubmit { selected_lat := some (mkRat 391 10),
                  selected_lon := some (mkRat (-8451) 100) }
          (some (.ok [])) "erin" "hole" "High" "t1" "t2" =
        { file := some (.ok ([] ++ [req])),
          state := { selected_lat := none, selected_lon := none },
          result := .saved }) :=
  ⟨by decide, by decide,
   (selection_state_machine_amended [] "erin" "hole" "High" "t1" "t2"
     (mkRat 391 10) (mkRat (-8451) 100) (by decide) (by decide)).2.2.1⟩

/-- Municipal row whose flag cell is the missing value. -/
def muniRowNoFlagCell : MuniRow :=
  { status_flag := none, latitude := .num (mkRat 3915 100), longitude := .num (mkRat (-8452) 100),
    sr_number := "SR5" }

/-- The five-row example feed of the spec: flags OPEN, CLOSED, open, empty
string, and a missing cell. -/
def exampleFeed5 : MuniFeed :=
  { hasStatusFlag := true,
    rows :=
      [{ status_flag := some "OPEN", latitude := .num (mkRat 3911 100),
         longitude := .num (mkRat (-8451) 100), sr_number := "SR1" },
       { status_flag := some "CLOSED", latitude := .num (mkRat 3912 100),
         longitude := .num (mkRat (-8452) 100), sr_number := "SR2" },
       { status_flag := some "open", latitude := .num (mkRat 3913 100),
         longitude := .num (mkRat (-8453) 100), sr_number := "SR3" },
       { status_flag := some "", latitude := .num (mkRat 3914 100),
         longitude := .num (mkRat (-8454) 100), sr_number := "SR4" },
       muniRowNoFlagCell] }

/-- A feed whose `SR_STATUS_FLAG` column is missing entirely. -/
def feedNoFlagColumn : MuniFeed :=
  { hasStatusFlag := false,
    rows := [{ status_flag := some "OPEN", latitude := .num (mkRat 391 10),
               longitude := .num (mkRat (-845) 10), sr_number := "SR1" }] }

/-- Counterexample to C4: on a feed whose status-flag column is missing,
final_app.py's overlay builder raises an uncaught `AttributeError` (the
plain-string default of `df.get` has no `astype`) instead of yielding no
open rows. -/
theorem final_missing_flag_column_raises_cex :
    add_pothole_csv_layer (some (.ok feedNoFlagColumn)) =
      .error .attributeError := rfl

/-- C4 as amended: with the status-flag column present, exactly the rows
whose flag upper-cases to `"OPEN"` are retained (on the spec's five-flag
example, the `"OPEN"` and `"open"` rows); with the column missing,
new_app.py's loader yields no rows (the `AttributeError` is swallowed by its
catch-all, surfacing only a warning) while final_app.py's overlay builder
propagates the error. -/
theorem open_filter_amended (feed : MuniFeed) (r : MuniRow)
    (hcol : feed.hasStatusFlag = true) :
    (∃ l, openRowsExpr feed = .ok l ∧
      (r ∈ l ↔ r ∈ feed.rows ∧ ∃ s, r.status_flag = some s ∧
        upperString s = "OPEN")) ∧
    openRowsExpr exampleFeed5 =
      .ok [exampleFeed5.rows.get ⟨0, by decide⟩,
           exampleFeed5.rows.get ⟨2, by decide⟩] ∧
    (∀ rs, load_pothole_data (some (.ok ⟨false, rs⟩)) = ([], true)) ∧
    (∀ rs, add_pothole_csv_layer (some (.ok ⟨false, rs⟩)) =
      .error .attributeError) := by
  refine ⟨⟨feed.rows.filter fun q => upperString (pandasStr q.status_flag) == "OPEN",
      ?_, ?_⟩, by decide, fun rs => rfl, fun rs => rfl⟩
  · simp [openRowsExpr, hcol]
  · rw [List.mem_filter]
    constructor
    · rintro ⟨hmem, hflag⟩
      refine ⟨hmem, ?_⟩
      cases hsf : r.status_flag with
      | none =>
        rw [hsf] at hflag
        exact absurd hflag (by decide)
      | some s =>
        rw [hsf] at hflag
        exact ⟨s, rfl, by simpa [pandasStr] using hflag⟩
    · rintro ⟨hmem, s, hsf, hup⟩
      exact ⟨hmem, by simp [hsf, pandasStr, hup]⟩

/-- Witness for the amended C4 at the five-flag example feed and its first
row. -/
theorem open_filter_amended_witness :
    exampleFeed5.hasStatusFlag = true ∧
    ∃ l, openRowsExpr exampleFeed5 = .ok l ∧
      (exampleFeed5.rows.get ⟨0, by decide⟩ ∈ l ↔
        exampleFeed5.rows.get ⟨0, by decide⟩ ∈ exampleFeed5.rows ∧
        ∃ s, (exampleFeed5.rows.get ⟨0, by decide⟩).status_flag = some s ∧
          upperString s = "OPEN") :=
  ⟨rfl,
   (open_filter_amended exampleFeed5 (exampleFeed5.rows.get ⟨0, by decide⟩)
     rfl).1⟩

/-- Open municipal row whose latitude cell is a non-numeric string (the
spec's `LATITUDE="not_a_number"` example). -/
def badLatRow : MuniRow :=
  { status_flag := some "OPEN", latitude := .badStr "not_a_number",
    longitude := .num (mkRat (-845) 10), sr_number := "SR9" }

/-- Feed holding `badLatRow` together with a fully parseable open row. -/
def feedBadLat : MuniFeed :=
  { hasStatusFlag := true,
    rows := [badLatRow,
             { status_flag := some "OPEN", latitude := .num (mkRat 392 10),
               longitude := .num (mkRat (-844) 10), sr_number := "SR10" }] }

/-- Counterexample to C6: in app.py the guard is `pd.notna`, which a
non-numeric latitude string passes, so the row is NOT dropped from the
overlay set — it is handed to the marker constructor with its raw cell
values. -/
theorem app_keeps_unparsable_coordinate_cex :
    tryFloat badLatRow.latitude = none ∧
    appOverlayRows feedBadLat =
      .ok [badLatRow, feedBadLat.rows.get ⟨1, by decide⟩] :=
  ⟨rfl, by decide⟩

/-- C6 as amended: in the final_app.py (and new_app.py) loaders a row whose
latitude or longitude fails to parse as a number is dropped silently — the
function never raises once the flag column exists, every produced marker
comes from an open row with parseable coordinates, and every open row with
parseable coordinates still yields its marker; in the app.py variant only
null (NaN) coordinates are dropped, so an open row with a non-numeric
coordinate string is retained and passed to the renderer. -/
theorem coordinate_drop_amended (feed : MuniFeed)
    (hcol : feed.hasStatusFlag = true) :
    (∃ ms, add_pothole_csv_layer (some (.ok feed)) = .ok ms ∧
      (∀ m ∈ ms, ∃ r ∈ feed.rows,
        (upperString (pandasStr r.status_flag) == "OPEN") = true ∧
        tryFloat r.latitude = some m.1 ∧ tryFloat r.longitude = some m.2.1 ∧
        m.2.2 = r.sr_number) ∧
      (∀ r ∈ feed.rows,
        (upperString (pandasStr r.status_flag) == "OPEN") = true →
        ∀ a b, tryFloat r.latitude = some a → tryFloat r.longitude = some b →
          (a, b, r.sr_number) ∈ ms)) ∧
    (∀ r ∈ feed.rows, appOpenFilter r = true →
      notnaCell r.latitude = true → notnaCell r.longitude = true →
      ∃ l, appOverlayRows feed = .ok l ∧ r ∈ l) := by
  have hopen : openRowsExpr feed =
      .ok (feed.rows.filter fun q =>
        upperString (pandasStr q.status_flag) == "OPEN") := by
    simp [openRowsExpr, hcol]
  constructor
  · refine ⟨(feed.rows.filter fun q =>
        upperString (pandasStr q.status_flag) == "OPEN").filterMap fun r =>
          match tryFloat r.latitude, tryFloat r.longitude with
          | some a, some b => some (a, b, r.sr_number)
          | _, _ => none,
      by simp [add_pothole_csv_layer, hopen], ?_, ?_⟩
    · intro m hm
      obtain ⟨r, hr, hf⟩ := List.mem_filterMap.1 hm
      obtain ⟨hrmem, hp⟩ := List.mem_filter.1 hr
      cases hla : tryFloat r.latitude with
      | none => rw [hla] at hf; cases hf
      | some a =>
        cases hlo : tryFloat r.longitude with
        | none => rw [hla, hlo] at hf; cases hf
        | some b =>
          rw [hla, hlo] at hf
          simp only [Option.some.injEq] at hf
          subst hf
          exact ⟨r, hrmem, hp, hla, hlo, rfl⟩
    · intro r hr hp a b hla hlo
      exact List.mem_filterMap.2 ⟨r, List.mem_filter.2 ⟨hr, hp⟩,
        by rw [hla, hlo]⟩
  · intro r hr hopenf hna hnb
    refine ⟨(feed.rows.filter appOpenFilter).filter fun q =>
        notnaCell q.latitude && notnaCell q.longitude,
      by simp [appOverlayRows, hcol], ?_⟩
    exact List.mem_filter.2 ⟨List.mem_filter.2 ⟨hr, hopenf⟩,
      by simp [hna, hnb]⟩

/-- Witness for the amended C6: on `feedBadLat`, final_app.py's layer still
renders the parseable row (while the `not_a_number` row yields no marker,
per `app_keeps_unparsable_coordinate_cex` it stays in app.py's set). -/
theorem coordinate_drop_amended_witness :
    feedBadLat.hasStatusFlag = true ∧
    ∃ ms, add_pothole_csv_layer (some (.ok feedBadLat)) = .ok ms ∧
      (PyFloat.fin (mkRat 392 10), PyFloat.fin (mkRat (-844) 10), "SR10") ∈ ms := by
  obtain ⟨⟨ms, hms, _, hcomplete⟩, _⟩ := coordinate_drop_amended feedBadLat rfl
  exact ⟨rfl, ms, hms,
    hcomplete (feedBadLat.rows.get ⟨1, by decide⟩) (by decide) (by decide)
      (PyFloat.fin (mkRat 392 10)) (PyFloat.fin (mkRat (-844) 10)) rfl rfl⟩

/-- Counterexample to C8: in app.py a submission with a blank reporter name
is stored with `name = ""`, not the `"anonymous"` sentinel. -/
theorem app_blank_name_stored_blank_cex :
    appSubmit { selected_lat := some (mkRat 391 10),
                selected_lon := some (mkRat (-8451) 100) }
        none "" "wide pothole" "Low" "t1" "t2" =
      .ok { file := some (.ok [{ id := "t1", name := "",
                                 description := "wide pothole",
                                 severity := "Low", lat := mkRat 391 10,
                                 lon := mkRat (-8451) 100,
                                 timestamp := "t2" }]),
            state := { selected_lat := some (mkRat 391 10),
                       selected_lon := some (mkRat (-8451) 100) },
            result := .saved } ∧
    ("" : String) ≠ "anonymous" :=
  ⟨by decide, by decide⟩

/-- C8 as amended: a blank reporter name is defaulted to `"anonymous"` only
in the final_app.py and new_app.py submit handlers; the app.py and
mapillary_streamlit.py handlers store the blank name unchanged. -/
theorem anonymous_default_amended (rows : List UserReq)
    (description severity ts1 ts2 : String) (lat lon : Rat)
    (hlat : lat ≠ 0) (hlon : lon ≠ 0) :
    (∃ req : UserReq, req.name = "anonymous" ∧
      finalSubmit { selected_lat := some lat, selected_lon := some lon }
          (some (.ok rows)) "" description severity ts1 ts2 =
        { file := some (.ok (rows ++ [req])),
          state := { selected_lat := some lat, selected_lon := some lon },
          result := .saved }) ∧
    (∃ req : UserReq, req.name = "anonymous" ∧
      newSubmit { selected_lat := some lat, selected_lon := some lon }
          (some (.ok rows)) "" description severity ts1 ts2 =
        { file := some (.ok (rows ++ [req])),
          state := { selected_lat := none, selected_lon := none },
          result := .saved }) ∧
    (∃ req : UserReq, req.name = "" ∧
      appSubmit { selected_lat := some lat, selected_lon := some lon }
          (some (.ok rows)) "" description severity ts1 ts2 =
        .ok { file := some (.ok (rows ++ [req])),
              state := { selected_lat := some lat, selected_lon := some lon },
              result := .saved }) ∧
    (∃ req : UserReq, req.name = "" ∧
      mapillarySubmit { selected_lat := some lat, selected_lon := some lon }
          (some (.ok rows)) "" description severity ts1 ts2 =
        .ok { file := some (.ok (rows ++ [req])),
              state := { selected_lat := some lat, selected_lon := some lon },
              result := .saved }) := by
  refine ⟨⟨{ id := ts1, name := "anonymous", description := description,
             severity := severity, lat := lat, lon := lon, timestamp := ts2 },
      rfl, ?_⟩,
    ⟨{ id := ts1, name := "anonymous", description := description,
       severity := severity, lat := lat, lon := lon, timestamp := ts2 },
      rfl, ?_⟩,
    ⟨{ id := ts1, name := "", description := description,
       severity := severity, lat := lat, lon := lon, timestamp := ts2 },
      rfl, ?_⟩,
    ⟨{ id := ts1, name := "", description := description,
       severity := severity, lat := lat, lon := lon, timestamp := ts2 },
      rfl, ?_⟩⟩
  · simp [finalSubmit, pyTruthy, hlat, hlon, save_user_request]
  · simp [newSubmit, pyTruthy, hlat, hlon, save_user_request]
  · simp [appSubmit, pyTruthy, hlat, hlon]
  · simp [mapillarySubmit, pyTruthy, hlat, hlon]

/-- Witness for the amended C8 at the selection (39.1, −84.5) on an empty
store: final_app.py stores `"anonymous"` for a blank name. -/
theorem anonymous_default_amended_witness :
    (mkRat 391 10) ≠ 0 ∧ (mkRat (-845) 10) ≠ 0 ∧
    (∃ req : UserReq, req.name = "anonymous" ∧
      finalSubmit { selected_lat := some (mkRat 391 10),
                    selected_lon := some (mkRat (-845) 10) }
          (some (.ok [])) "" "gap" "Low" "t1" "t2" =
        { file := some (.ok ([] ++ [req])),
          state := { selected_lat := some (mkRat 391 10),
                     selected_lon := some (mkRat (-845) 10) },
          result := .saved }) :=
  ⟨by decide, by decide,
   (anonymous_default_amended [] "gap" "Low" "t1" "t2"
     (mkRat 391 10) (mkRat (-845) 10) (by decide) (by decide)).1⟩
